import Mathlib

/-!
Verification of the real-time pitch detector
(`src/components/utils/PitchDetector.ts`).

The estimator (`autoCorrelate`), the octave corrector
(`correctOctaveError`), the smoothing/tracking state machine
(`smoothFrequency`, `getSmoothedFrequency`, the body of `updatePitch`
inside `startListening`, and `stopListening`) are embedded shallowly
over exact rationals.  Audio samples, timestamps and the sample rate are
rationals; machine floats are modelled by exact arithmetic.

Two deliberate, documented translation points:
* the source computes `rms = Math.sqrt(sum/SIZE)` and tests
  `rms < MIN_RMS`; since both sides are nonnegative this is equivalent
  to `sum/SIZE < MIN_RMS ^ 2`, and for `SIZE = 0` the JS comparison is
  `NaN < 0.02 = false`, which the embedding renders as the conjunct
  `SIZE ≠ 0`;
* `NOTE_FREQUENCIES` (imported from `../constants/notes`, a file that is
  not part of the analysed sources and that the design document treats
  as an external capability) and the irrational cents computation
  `Math.round(1200*Math.log2(f/ref))` are passed in as parameters
  (`noteTable`, `centsOf`); no analysed claim depends on them.

Division in ℚ is total (`x / 0 = 0`), so every division the source
performs is additionally tracked: the `ACTrace` structure records which
divisions were reached and with which divisor, so that "the divisor is
nonzero" is a provable/falsifiable statement rather than an artifact of
total division.
-/

/- The Batteries rational-number operations are `@[irreducible]`, which
blocks `decide`-style evaluation of the embedded functions on concrete
inputs.  Re-allow unfolding locally; the kernel is unaffected. -/
attribute [local semireducible] Rat.mul Rat.add Rat.inv Rat.sub Rat.ofScientific

/-- `this.HISTORY_SIZE = 5` (line 13 of the source). -/
def HISTORY_SIZE : Nat := 5

/-- `this.MIN_RMS = 0.02` (line 14). -/
def MIN_RMS : ℚ := 1/50

/-- `this.MIN_CLARITY = 0.9` (line 15). -/
def MIN_CLARITY : ℚ := 9/10

/-- `this.PAUSE_THRESHOLD = 1000` ms (line 17). -/
def PAUSE_THRESHOLD : ℚ := 1000

/-- The amplitude threshold `thres = 0.2` used for trimming (line 65). -/
def TRIM_THRESHOLD : ℚ := 1/5

/-- `Σ buf[i]²` — the accumulator of the RMS loop (lines 57-60). -/
def sumSquares (buf : List ℚ) : ℚ := (buf.map (fun v => v * v)).sum

/-- Lines 64-71: `r1` is the first index `i` with `i < SIZE/2` and
`|buf[i]| < thres`, and `0` when no such index exists.
`i < SIZE/2` over integers is `i < (SIZE+1)/2` in truncated arithmetic. -/
def findR1 (buf : List ℚ) : Nat :=
  (((List.range ((buf.length + 1) / 2)).find?
      (fun i => decide (|buf.getD i 0| < TRIM_THRESHOLD))).getD 0)

/-- Lines 64, 72-77: `r2` is `SIZE - i` for the first `i ≥ 1` with
`i < SIZE/2` and `|buf[SIZE-i]| < thres`, defaulting to `SIZE - 1`. -/
def findR2 (buf : List ℚ) : Nat :=
  match (List.range' 1 ((buf.length + 1) / 2 - 1)).find?
      (fun i => decide (|buf.getD (buf.length - i) 0| < TRIM_THRESHOLD)) with
  | some i => buf.length - i
  | none => buf.length - 1

/-- Lines 83-88: the autocorrelation sequence
`c[i] = Σ_{j < n-i} b[j]·b[j+i]` of the trimmed buffer. -/
def autocorrList (b : List ℚ) : List ℚ :=
  (List.range b.length).map (fun i => (List.zipWith (· * ·) b (b.drop i)).sum)

/-- Lines 90-91: `while (d < newSize-1 && c[d] > c[d+1]) d++` starting at
`d = 0`; the first `d < n-1` with `c[d] ≤ c[d+1]`, else `n-1`. -/
def descendIdx (c : List ℚ) : Nat :=
  ((List.range (c.length - 1)).find?
      (fun d => decide (c.getD d 0 ≤ c.getD (d + 1) 0))).getD (c.length - 1)

/-- Loop body of lines 97-102: update `(maxval, maxpos)` when
`c[i] > maxval`. -/
def peakStep (c : List ℚ) : (ℚ × Option Nat) → Nat → (ℚ × Option Nat) :=
  fun acc i => if c.getD i 0 > acc.1 then (c.getD i 0, some i) else acc

/-- Lines 93-102: the peak scan.  `maxval` starts at `-1` and `maxpos`
at `-1` (rendered `none`); each `i ∈ [lo, hi)` with `c[i] > maxval`
updates both. -/
def scanPeak (c : List ℚ) (lo hi : Nat) : ℚ × Option Nat :=
  (List.range' lo (hi - lo)).foldl (peakStep c) ((-1 : ℚ), none)

/-- Insertion into an ascending list; building block of `sortAsc`. -/
def insertAsc (x : ℚ) : List ℚ → List ℚ
  | [] => [x]
  | y :: ys => if x ≤ y then x :: y :: ys else y :: insertAsc x ys

/-- The ascending numeric sort `[...].sort((a, b) => a - b)` of line 156
(insertion sort; any correct sort has the same value on numbers). -/
def sortAsc (l : List ℚ) : List ℚ := l.foldr insertAsc []

/-- `getSmoothedFrequency` (lines 153-164): 0 on empty history, else the
median of the sorted history. -/
def getSmoothedFrequency (hist : List ℚ) : ℚ :=
  if hist.length = 0 then 0
  else
    let sorted := sortAsc hist
    let mid := sorted.length / 2
    if sorted.length % 2 = 0 then (sorted.getD (mid - 1) 0 + sorted.getD mid 0) / 2
    else sorted.getD mid 0

/-- `correctOctaveError` (lines 122-134).  The bands are the source's
literals: `(1.8, 2.2)`, `(0.45, 0.55)`, `(2.8, 3.2)`, `(0.3, 0.35)`. -/
def correctOctaveError (hist : List ℚ) (frequency : ℚ) : ℚ :=
  if hist.length < 3 then frequency
  else
    let recentFreq := getSmoothedFrequency hist
    let r := frequency / recentFreq
    if 9/5 < r ∧ r < 11/5 then frequency / 2
    else if 9/20 < r ∧ r < 11/20 then frequency * 2
    else if 14/5 < r ∧ r < 16/5 then frequency / 3
    else if 3/10 < r ∧ r < 7/20 then frequency * 3
    else frequency

/-- The `{frequency, clarity}` record returned by `autoCorrelate`. -/
structure ACResult where
  frequency : ℚ
  clarity : ℚ
deriving DecidableEq, Repr

/-- Execution trace of one `autoCorrelate` call: every intermediate the
source computes, plus `finalDivision = some T0` exactly when control
reaches the unguarded division `frequency = sampleRate / T0` (line 118),
recording its divisor. -/
structure ACTrace where
  rmsSilent : Bool
  sliced : List ℚ
  tooShort : Bool
  c : List ℚ
  d : Nat
  lo : Nat
  hi : Nat
  maxval : ℚ
  maxpos : Option Nat
  clarity : ℚ
  finalDivision : Option ℚ
  result : ACResult
deriving DecidableEq, Repr

/-- The parabolic-interpolation curvature `a = (x1 + x3 - 2*x2)/2`
(line 113) around peak position `p`. -/
def parabolaA (c : List ℚ) (p : Nat) : ℚ :=
  (c.getD (p - 1) 0 + c.getD (p + 1) 0 - 2 * c.getD p 0) / 2

/-- The parabolic-interpolation slope `b = (x3 - x1)/2` (line 114). -/
def parabolaB (c : List ℚ) (p : Nat) : ℚ :=
  (c.getD (p + 1) 0 - c.getD (p - 1) 0) / 2

/-- Lines 64-80: the trimmed buffer `buf.slice(r1, r2)`. -/
def trimmedBuf (buf : List ℚ) : List ℚ :=
  (buf.take (findR2 buf)).drop (findR1 buf)

/-- Lines 83-119 of `autoCorrelate`: everything after the trimming
guard, as a function of the trimmed buffer `sliced` and its
autocorrelation `c` (the caller passes `c = autocorrList sliced`).
`hist` is the `this.frequencyHistory` read by the `correctOctaveError`
call on line 119. -/
def acScan (hist sliced c : List ℚ) (sr : ℚ) : ACTrace :=
  let n := sliced.length
  let d := descendIdx c
  -- lines 93-102
  let lo := max d (Nat.floor (sr / 1000))
  let hi := min n (Nat.floor (sr / 80))
  let scan := scanPeak c lo hi
  match scan.2 with
  | none =>
      -- line 104, `maxpos === -1`
      { rmsSilent := false, sliced := sliced, tooShort := false, c := c,
        d := d, lo := lo, hi := hi, maxval := scan.1, maxpos := none,
        clarity := 0, finalDivision := none,
        result := { frequency := -1, clarity := 0 } }
  | some p =>
      if scan.1 ≤ 0 then
        -- line 104, `maxval <= 0`
        { rmsSilent := false, sliced := sliced, tooShort := false, c := c,
          d := d, lo := lo, hi := hi, maxval := scan.1, maxpos := some p,
          clarity := 0, finalDivision := none,
          result := { frequency := -1, clarity := 0 } }
      else
        -- lines 106-107
        let clarity := scan.1 / c.getD 0 0
        if clarity < MIN_CLARITY then
          { rmsSilent := false, sliced := sliced, tooShort := false, c := c,
            d := d, lo := lo, hi := hi, maxval := scan.1, maxpos := some p,
            clarity := clarity, finalDivision := none,
            result := { frequency := -1, clarity := clarity } }
        else
          -- lines 109-119: T0 = maxpos, adjusted by -b/(2a) when
          -- 0 < T0 < newSize-1 and a ≠ 0
          let T0 : ℚ :=
            if 0 < p ∧ p < n - 1 ∧ parabolaA c p ≠ 0
            then (p : ℚ) - parabolaB c p / (2 * parabolaA c p)
            else (p : ℚ)
          { rmsSilent := false, sliced := sliced, tooShort := false, c := c,
            d := d, lo := lo, hi := hi, maxval := scan.1, maxpos := some p,
            clarity := clarity, finalDivision := some T0,
            result := { frequency := correctOctaveError hist (sr / T0),
                        clarity := clarity } }

/-- `autoCorrelate` (lines 53-120), instrumented.  Early returns fill
the remaining trace fields with the JS initial values of the
corresponding variables. -/
def autoCorrelateTrace (hist buf : List ℚ) (sr : ℚ) : ACTrace :=
  -- lines 55-62; see the header comment for the exact rendering of
  -- `Math.sqrt(rms/SIZE) < MIN_RMS`.
  if buf.length ≠ 0 ∧ sumSquares buf / (buf.length : ℚ) < MIN_RMS ^ 2 then
    { rmsSilent := true, sliced := [], tooShort := false, c := [], d := 0,
      lo := 0, hi := 0, maxval := -1, maxpos := none, clarity := 0,
      finalDivision := none, result := { frequency := -1, clarity := 0 } }
  -- lines 64-81
  else if (trimmedBuf buf).length < 100 then
    { rmsSilent := false, sliced := trimmedBuf buf, tooShort := true, c := [],
      d := 0, lo := 0, hi := 0, maxval := -1, maxpos := none, clarity := 0,
      finalDivision := none, result := { frequency := -1, clarity := 0 } }
  else acScan hist (trimmedBuf buf) (autocorrList (trimmedBuf buf)) sr

/-- `autoCorrelate` proper: the `{frequency, clarity}` the source returns. -/
def autoCorrelate (hist buf : List ℚ) (sr : ℚ) : ACResult :=
  (autoCorrelateTrace hist buf sr).result

/-- `smoothFrequency` (lines 136-151): push, bound the history by
`HISTORY_SIZE` (`shift()` drops the head), then return the frequency
itself (singleton), the mean (length 2), or the median (length ≥ 3).
Returns the updated history together with the smoothed value. -/
def smoothFrequency (hist : List ℚ) (frequency : ℚ) : List ℚ × ℚ :=
  let h1 := hist ++ [frequency]
  let h2 := if HISTORY_SIZE < h1.length then h1.tail else h1
  if h2.length = 1 then (h2, frequency)
  else if h2.length < 3 then (h2, h2.sum / (h2.length : ℚ))
  else (h2, getSmoothedFrequency h2)

/-- The mutable per-session fields of `PitchDetector` that the tracking
logic reads and writes: `frequencyHistory` (line 12) and
`lastDetectionTime` (line 16). -/
structure TrackerState where
  frequencyHistory : List ℚ
  lastDetectionTime : ℚ
deriving DecidableEq, Repr

/-- Field initialisers: `frequencyHistory = []`, `lastDetectionTime = 0`. -/
def initialState : TrackerState := { frequencyHistory := [], lastDetectionTime := 0 }

/-- The `PitchData` record (lines 279-286) delivered to the caller.
Its fields are exactly the source's: `frequency`, `note` (always set to
`null`, line 239), `noteString`, `cents`, `buffer`, `clarity` — there is
no `isAfterGap` field. -/
structure PitchData where
  frequency : ℚ
  note : Option ℚ
  noteString : Option String
  cents : Option ℤ
  buffer : List ℚ
  clarity : ℚ
deriving DecidableEq, Repr

/-- `findClosestNote` (lines 24-51), over an explicit `noteTable`
(the external `NOTE_FREQUENCIES`) and an abstract `centsOf` for the
irrational `Math.round(1200*Math.log2(f/ref))`.  Returns
`(note, cents, noteFrequency)`.  `minDifference` starts at `Infinity`
(no entry yet = `none`); ties keep the earlier entry, as in the strict
`difference < minDifference` test. -/
def findClosestNote (noteTable : List (String × ℚ)) (centsOf : ℚ → ℚ → ℤ)
    (frequency : ℚ) : Option (String × ℤ × ℚ) :=
  if frequency ≤ 0 then none
  else
    match noteTable.foldl
        (fun acc nf =>
          match acc with
          | none => some nf
          | some b => if |frequency - nf.2| < |frequency - b.2| then some nf else some b)
        none with
    | none => none
    | some b => some (b.1, centsOf frequency b.2, b.2)

/-- Lines 226-243: construction of the delivered `PitchData` from the
(possibly smoothed) `frequency` and the estimator `clarity`.  The source
first sets `frequency: frequency > 0 ? frequency : 0` and then, under a
second `frequency > 0` test, fills `noteString`/`cents` from
`findClosestNote`; merging the two identical tests is value-preserving
(inside the positive branch the stored frequency is `frequency` itself). -/
def buildPitchData (centsOf : ℚ → ℚ → ℤ) (noteTable : List (String × ℚ))
    (frequency clarity : ℚ) (buf : List ℚ) : PitchData :=
  if 0 < frequency then
    match findClosestNote noteTable centsOf frequency with
    | some nd =>
        { frequency := frequency, note := none, noteString := some nd.1,
          cents := some nd.2.1, buffer := buf, clarity := clarity }
    | none =>
        { frequency := frequency, note := none, noteString := none,
          cents := none, buffer := buf, clarity := clarity }
  else
    { frequency := 0, note := none, noteString := none, cents := none,
      buffer := buf, clarity := clarity }

/-- Lines 210-245 of `updatePitch`, from `let frequency = result.frequency`
to the `callback(pitchData)` argument: the per-frame state update
(lines 214-224: gap check, history clear, smoothing, timestamp) and the
`PitchData` construction, as a function of the estimator result.  Returns
the new tracker state and the delivered `PitchData`. -/
def processResult (centsOf : ℚ → ℚ → ℤ) (noteTable : List (String × ℚ))
    (s : TrackerState) (res : ACResult) (now : ℚ) (buf : List ℚ) :
    TrackerState × PitchData :=
  if 0 < res.frequency then
    let hist1 := if PAUSE_THRESHOLD < now - s.lastDetectionTime
                 then [] else s.frequencyHistory
    let sm := smoothFrequency hist1 res.frequency
    ({ frequencyHistory := sm.1, lastDetectionTime := now },
      buildPitchData centsOf noteTable sm.2 res.clarity buf)
  else (s, buildPitchData centsOf noteTable res.frequency res.clarity buf)

/-- One whole `updatePitch` frame (lines 192-246): run the estimator on
the captured buffer against the current history, then update the state
and build the output. -/
def updatePitchStep (centsOf : ℚ → ℚ → ℤ) (noteTable : List (String × ℚ))
    (s : TrackerState) (buf : List ℚ) (sr now : ℚ) : TrackerState × PitchData :=
  processResult centsOf noteTable s (autoCorrelate s.frequencyHistory buf sr) now buf

/-- `stopListening` (lines 256-276) as it acts on the tracked state:
`frequencyHistory = []`; `lastDetectionTime` is not reset. -/
def stopListening (s : TrackerState) : TrackerState :=
  { frequencyHistory := [], lastDetectionTime := s.lastDetectionTime }

/-- The tracker states reachable in a session: the initial field values,
closed under processed frames and `stopListening`. -/
inductive Reachable : TrackerState → Prop where
  | init : Reachable initialState
  | step : ∀ {s} (centsOf : ℚ → ℚ → ℤ) (noteTable : List (String × ℚ))
      (buf : List ℚ) (sr now : ℚ), Reachable s →
      Reachable (updatePitchStep centsOf noteTable s buf sr now).1
  | stop : ∀ {s}, Reachable s → Reachable (stopListening s)

/-- A cents function for concrete instances (the analysed claims never
depend on its value). -/
def centsOf0 : ℚ → ℚ → ℤ := fun _ _ => 0

/-- The tracked (possibly smoothed) frequency a frame reports: lines
214-224 folded into one expression.  On a valid estimate it is the
smoothed value over the (possibly gap-cleared) history; otherwise the
sentinel itself. -/
def trackedFrequency (s : TrackerState) (res : ACResult) (now : ℚ) : ℚ :=
  if 0 < res.frequency then
    (smoothFrequency
      (if PAUSE_THRESHOLD < now - s.lastDetectionTime then [] else s.frequencyHistory)
      res.frequency).2
  else res.frequency

/-- The condition of lines 214-220 under which a frame clears the
history (a gap boundary): a valid estimate whose elapsed time since the
last detection exceeds `PAUSE_THRESHOLD`. -/
def gapTriggered (s : TrackerState) (res : ACResult) (now : ℚ) : Bool :=
  decide (0 < res.frequency) && decide (PAUSE_THRESHOLD < now - s.lastDetectionTime)

/-! ## Concrete frames used by the counterexamples and witnesses

All sample values have magnitude ≥ 0.2, so trimming only drops the last
sample (`r1 = 0`, `r2 = SIZE - 1`), and the RMS gate passes.  The
`s...`/`c...` lists below are the precomputed trimmed buffers and their
autocorrelation sequences; they are tied to the generating buffers by
the proven equations `trim_...` and `autocorr_...` further down. -/

/-- A 101-sample frame: constant 1 with a pulse pair at 40/44 (which
stalls the descent at `d = 3` because `c[3] = c[4]`) and a tweak at
sample 91 whose size `t` tunes the parabolic-interpolation offset at the
window-boundary peak `maxpos = 8`. -/
def cexBuf (t : ℚ) : List ℚ :=
  (List.range 101).map (fun j => if j = 40 ∨ j = 44 then 2 else if j = 91 then 1 + t else 1)

/-- `t = 2/15` makes the interpolation offset exactly `8`, so `T0 = 0`:
the final division `sampleRate / T0` divides by zero. -/
def cexBufT0zero : List ℚ := cexBuf (2/15)

/-- `t = 1/7` makes the interpolation offset `15/2`, so `T0 = 1/2` and
the delivered frequency is `8000 / (1/2) = 16000` Hz. -/
def cexBufHighFreq : List ℚ := cexBuf (1/7)

/-- A 101-sample frame with a pulse pair at distance 9: its peak sits at
lag 9, strictly inside the window `[8, 100)`. -/
def cexBufInterior : List ℚ :=
  (List.range 101).map (fun j => if j = 40 ∨ j = 49 then 11/5 else 1)

/-- A 151-sample square wave of period 22: at 4000 Hz sample rate its
peak is at lag 22 (≈ 181.8 Hz, below 200 Hz) with clarity 64/75 ≈ 0.853,
inside the spec's "relaxed" band [0.85, 0.9) yet below `MIN_CLARITY`. -/
def cexBufLowFreq : List ℚ :=
  (List.range 151).map (fun j => if j % 22 < 11 then 1 else -1)

/-- Precomputed `trimmedBuf cexBufT0zero`. -/
def sT0zero : List ℚ := [
  1, 1, 1, 1, 1, 1, 1, 1, 1, 1, 1, 1, 1, 1, 1, 1, 1, 1, 1, 1,
  1, 1, 1, 1, 1, 1, 1, 1, 1, 1, 1, 1, 1, 1, 1, 1, 1, 1, 1, 1,
  2, 1, 1, 1, 2, 1, 1, 1, 1, 1, 1, 1, 1, 1, 1, 1, 1, 1, 1, 1,
  1, 1, 1, 1, 1, 1, 1, 1, 1, 1, 1, 1, 1, 1, 1, 1, 1, 1, 1, 1,
  1, 1, 1, 1, 1, 1, 1, 1, 1, 1, 1, 17/15, 1, 1, 1, 1, 1, 1, 1, 1]

/-- Precomputed `trimmedBuf cexBufHighFreq`. -/
def sHighFreq : List ℚ := [
  1, 1, 1, 1, 1, 1, 1, 1, 1, 1, 1, 1, 1, 1, 1, 1, 1, 1, 1, 1,
  1, 1, 1, 1, 1, 1, 1, 1, 1, 1, 1, 1, 1, 1, 1, 1, 1, 1, 1, 1,
  2, 1, 1, 1, 2, 1, 1, 1, 1, 1, 1, 1, 1, 1, 1, 1, 1, 1, 1, 1,
  1, 1, 1, 1, 1, 1, 1, 1, 1, 1, 1, 1, 1, 1, 1, 1, 1, 1, 1, 1,
  1, 1, 1, 1, 1, 1, 1, 1, 1, 1, 1, 8/7, 1, 1, 1, 1, 1, 1, 1, 1]

/-- Precomputed `trimmedBuf cexBufInterior`. -/
def sInterior : List ℚ := [
  1, 1, 1, 1, 1, 1, 1, 1, 1, 1, 1, 1, 1, 1, 1, 1, 1, 1, 1, 1,
  1, 1, 1, 1, 1, 1, 1, 1, 1, 1, 1, 1, 1, 1, 1, 1, 1, 1, 1, 1,
  11/5, 1, 1, 1, 1, 1, 1, 1, 1, 11/5, 1, 1, 1, 1, 1, 1, 1, 1, 1, 1,
  1, 1, 1, 1, 1, 1, 1, 1, 1, 1, 1, 1, 1, 1, 1, 1, 1, 1, 1, 1,
  1, 1, 1, 1, 1, 1, 1, 1, 1, 1, 1, 1, 1, 1, 1, 1, 1, 1, 1, 1]

/-- Precomputed `trimmedBuf cexBufLowFreq`. -/
def sLowFreq : List ℚ := [
  1, 1, 1, 1, 1, 1, 1, 1, 1, 1, 1, -1, -1, -1, -1, -1, -1, -1, -1, -1,
  -1, -1, 1, 1, 1, 1, 1, 1, 1, 1, 1, 1, 1, -1, -1, -1, -1, -1, -1, -1,
  -1, -1, -1, -1, 1, 1, 1, 1, 1, 1, 1, 1, 1, 1, 1, -1, -1, -1, -1, -1,
  -1, -1, -1, -1, -1, -1, 1, 1, 1, 1, 1, 1, 1, 1, 1, 1, 1, -1, -1, -1,
  -1, -1, -1, -1, -1, -1, -1, -1, 1, 1, 1, 1, 1, 1, 1, 1, 1, 1, 1, -1,
  -1, -1, -1, -1, -1, -1, -1, -1, -1, -1, 1, 1, 1, 1, 1, 1, 1, 1, 1, 1,
  1, -1, -1, -1, -1, -1, -1, -1, -1, -1, -1, -1, 1, 1, 1, 1, 1, 1, 1, 1,
  1, 1, 1, -1, -1, -1, -1, -1, -1, -1]

/-- Precomputed `autocorrList sT0zero`. -/
def cT0zero : List ℚ := [
  23914/225, 1549/15, 1534/15, 1519/15, 1519/15, 1489/15, 1474/15, 1459/15, 1444/15, 1427/15, 1412/15, 1397/15,
  1382/15, 1367/15, 1352/15, 1337/15, 1322/15, 1307/15, 1292/15, 1277/15, 1262/15, 1247/15, 1232/15, 1217/15,
  1202/15, 1187/15, 1172/15, 1157/15, 1142/15, 1127/15, 1112/15, 1097/15, 1082/15, 1067/15, 1052/15, 1037/15,
  1022/15, 1007/15, 992/15, 977/15, 962/15, 932/15, 917/15, 902/15, 887/15, 857/15, 842/15, 829/15,
  812/15, 797/15, 782/15, 769/15, 752/15, 737/15, 722/15, 707/15, 677/15, 662/15, 647/15, 632/15,
  602/15, 587/15, 572/15, 557/15, 542/15, 527/15, 512/15, 497/15, 482/15, 467/15, 452/15, 437/15,
  422/15, 407/15, 392/15, 377/15, 362/15, 347/15, 332/15, 317/15, 302/15, 287/15, 272/15, 257/15,
  242/15, 227/15, 212/15, 197/15, 182/15, 167/15, 152/15, 137/15, 8, 7, 6, 5,
  4, 3, 2, 1]

/-- Precomputed `autocorrList sHighFreq`. -/
def cHighFreq : List ℚ := [
  5209/49, 723/7, 716/7, 709/7, 709/7, 695/7, 688/7, 681/7, 674/7, 666/7, 659/7, 652/7,
  645/7, 638/7, 631/7, 624/7, 617/7, 610/7, 603/7, 596/7, 589/7, 582/7, 575/7, 568/7,
  561/7, 554/7, 547/7, 540/7, 533/7, 526/7, 519/7, 512/7, 505/7, 498/7, 491/7, 484/7,
  477/7, 470/7, 463/7, 456/7, 449/7, 435/7, 428/7, 421/7, 414/7, 400/7, 393/7, 387/7,
  379/7, 372/7, 365/7, 359/7, 351/7, 344/7, 337/7, 330/7, 316/7, 309/7, 302/7, 295/7,
  281/7, 274/7, 267/7, 260/7, 253/7, 246/7, 239/7, 232/7, 225/7, 218/7, 211/7, 204/7,
  197/7, 190/7, 183/7, 176/7, 169/7, 162/7, 155/7, 148/7, 141/7, 134/7, 127/7, 120/7,
  113/7, 106/7, 99/7, 92/7, 85/7, 78/7, 71/7, 64/7, 8, 7, 6, 5,
  4, 3, 2, 1]

/-- Precomputed `autocorrList sInterior`. -/
def cInterior : List ℚ := [
  2692/25, 519/5, 514/5, 509/5, 504/5, 499/5, 494/5, 489/5, 484/5, 2431/25, 474/5, 469/5,
  464/5, 459/5, 454/5, 449/5, 444/5, 439/5, 434/5, 429/5, 424/5, 419/5, 414/5, 409/5,
  404/5, 399/5, 394/5, 389/5, 384/5, 379/5, 374/5, 369/5, 364/5, 359/5, 354/5, 349/5,
  344/5, 339/5, 334/5, 329/5, 324/5, 313/5, 308/5, 303/5, 298/5, 293/5, 288/5, 283/5,
  278/5, 273/5, 262/5, 251/5, 246/5, 241/5, 236/5, 231/5, 226/5, 221/5, 216/5, 211/5,
  40, 39, 38, 37, 36, 35, 34, 33, 32, 31, 30, 29,
  28, 27, 26, 25, 24, 23, 22, 21, 20, 19, 18, 17,
  16, 15, 14, 13, 12, 11, 10, 9, 8, 7, 6, 5,
  4, 3, 2, 1]

/-- Precomputed `autocorrList sLowFreq`. -/
def cLowFreq : List ℚ := [
  150, 123, 96, 69, 42, 15, -12, -39, -64, -89, -114, -139,
  -114, -89, -64, -39, -14, 11, 36, 59, 82, 105, 128, 105,
  82, 59, 36, 13, -10, -33, -54, -75, -96, -117, -96, -75,
  -54, -33, -12, 9, 30, 49, 68, 87, 106, 87, 68, 49,
  30, 11, -8, -27, -44, -61, -78, -95, -78, -61, -44, -27,
  -10, 7, 24, 39, 54, 69, 84, 69, 54, 39, 24, 9,
  -6, -21, -34, -47, -60, -73, -60, -47, -34, -21, -8, 5,
  18, 29, 40, 51, 62, 51, 40, 29, 18, 7, -4, -15,
  -24, -33, -42, -51, -42, -33, -24, -15, -6, 3, 12, 19,
  26, 33, 40, 33, 26, 19, 12, 5, -2, -9, -14, -19,
  -24, -29, -24, -19, -14, -9, -4, 1, 6, 9, 12, 15,
  18, 15, 12, 9, 6, 3, 0, -3, -4, -5, -6, -7,
  -6, -5, -4, -3, -2, -1]

/-! ## General lemmas about the embedded functions -/

/-- Unfolding lemma: past the silence and length guards, the trace is
the scan over the trimmed buffer's autocorrelation.  Used to stage
concrete evaluations. -/
theorem autoCorrelateTrace_stage (hist buf : List ℚ) (sr : ℚ)
    (h1 : ¬(buf.length ≠ 0 ∧ sumSquares buf / (buf.length : ℚ) < MIN_RMS ^ 2))
    (h2 : ¬((trimmedBuf buf).length < 100)) :
    autoCorrelateTrace hist buf sr
      = acScan hist (trimmedBuf buf) (autocorrList (trimmedBuf buf)) sr := by
  unfold autoCorrelateTrace
  rw [if_neg h1, if_neg h2]

/-- Invariant of the peak-scan fold: the running maximum only grows,
bounds every scanned entry, and a recorded position is either inherited
from the accumulator or a scanned index whose entry is the maximum. -/
theorem peak_fold_inv (c : List ℚ) (l : List Nat) (acc : ℚ × Option Nat) :
    acc.1 ≤ (l.foldl (peakStep c) acc).1 ∧
    (∀ i ∈ l, c.getD i 0 ≤ (l.foldl (peakStep c) acc).1) ∧
    (∀ p, (l.foldl (peakStep c) acc).2 = some p →
      (acc.2 = some p ∧ (l.foldl (peakStep c) acc).1 = acc.1) ∨
      (p ∈ l ∧ (l.foldl (peakStep c) acc).1 = c.getD p 0)) := by
  induction l generalizing acc with
  | nil =>
      refine ⟨le_refl _, by simp, fun p hp => Or.inl ⟨hp, rfl⟩⟩
  | cons a l ih =>
      simp only [List.foldl_cons]
      obtain ⟨ih1, ih2, ih3⟩ := ih (peakStep c acc a)
      have hstep : acc.1 ≤ (peakStep c acc a).1 ∧ c.getD a 0 ≤ (peakStep c acc a).1 := by
        unfold peakStep
        split
        · exact ⟨le_of_lt (by assumption), le_refl _⟩
        · exact ⟨le_refl _, le_of_not_lt (by assumption)⟩
      refine ⟨le_trans hstep.1 ih1, ?_, ?_⟩
      · intro i hi
        rcases List.mem_cons.mp hi with rfl | hmem
        · exact le_trans hstep.2 ih1
        · exact ih2 i hmem
      · intro p hp
        rcases ih3 p hp with ⟨h2, h1⟩ | ⟨hmem, h1⟩
        · by_cases hup : c.getD a 0 > acc.1
          · have hsome : (peakStep c acc a).2 = some a := by
              unfold peakStep; rw [if_pos hup]
            have hval : (peakStep c acc a).1 = c.getD a 0 := by
              unfold peakStep; rw [if_pos hup]
            rw [hsome] at h2
            obtain rfl := Option.some.inj h2
            exact Or.inr ⟨List.mem_cons_self _ _, by rw [h1, hval]⟩
          · have hkeep : peakStep c acc a = acc := by
              unfold peakStep; rw [if_neg hup]
            refine Or.inl ⟨?_, ?_⟩
            · rw [hkeep] at h2; exact h2
            · rw [h1, hkeep]
        · exact Or.inr ⟨List.mem_cons_of_mem _ hmem, h1⟩

/-- Specification of `scanPeak`: a returned position lies in the window,
carries the returned maximum, and dominates every window entry. -/
theorem scanPeak_spec (c : List ℚ) (lo hi p : Nat)
    (h : (scanPeak c lo hi).2 = some p) :
    (scanPeak c lo hi).1 = c.getD p 0 ∧ lo ≤ p ∧ p < hi ∧
    (∀ i, lo ≤ i → i < hi → c.getD i 0 ≤ c.getD p 0) := by
  obtain ⟨h1, h2, h3⟩ := peak_fold_inv c (List.range' lo (hi - lo)) ((-1 : ℚ), none)
  rcases h3 p h with ⟨hc, _⟩ | ⟨hmem, hval⟩
  · exact absurd hc (by simp)
  · have hb := List.mem_range'_1.mp hmem
    have hplo : lo ≤ p := hb.1
    have hphi : p < hi := by omega
    refine ⟨hval, hplo, hphi, fun i hilo hihi => ?_⟩
    have hle : c.getD i 0
        ≤ (List.foldl (peakStep c) ((-1 : ℚ), none) (List.range' lo (hi - lo))).1 :=
      h2 i (List.mem_range'_1.mpr ⟨hilo, by omega⟩)
    calc c.getD i 0 ≤ _ := hle
      _ = c.getD p 0 := hval

theorem zip_self_sum_nonneg (b : List ℚ) : 0 ≤ (List.zipWith (· * ·) b b).sum := by
  induction b with
  | nil => simp
  | cons a b ih =>
      simp only [List.zipWith_cons_cons, List.sum_cons]
      exact add_nonneg (mul_self_nonneg a) ih

/-- A zero autocorrelation at lag 0 forces an all-zero buffer. -/
theorem zip_self_sum_eq_zero (b : List ℚ) (h : (List.zipWith (· * ·) b b).sum = 0) :
    ∀ x ∈ b, x = 0 := by
  induction b with
  | nil => simp
  | cons a b ih =>
      simp only [List.zipWith_cons_cons, List.sum_cons] at h
      have h2 := add_eq_zero_iff_of_nonneg (mul_self_nonneg a) (zip_self_sum_nonneg b) |>.mp h
      intro x hx
      rcases List.mem_cons.mp hx with rfl | hmem
      · exact mul_self_eq_zero.mp h2.1
      · exact ih h2.2 x hmem

theorem zip_zero_sum (b b2 : List ℚ) (h : ∀ x ∈ b, x = 0) :
    (List.zipWith (· * ·) b b2).sum = 0 := by
  induction b generalizing b2 with
  | nil => simp
  | cons a b ih =>
      cases b2 with
      | nil => simp
      | cons y ys =>
          simp only [List.zipWith_cons_cons, List.sum_cons]
          rw [h a (List.mem_cons_self _ _), ih ys (fun x hx => h x (List.mem_cons_of_mem _ hx)),
            zero_mul, add_zero]

/-- `c[0]` is the energy `Σ b[j]²` of the trimmed buffer. -/
theorem autocorr_getD_zero (b : List ℚ) (hb : b ≠ []) :
    (autocorrList b).getD 0 0 = (List.zipWith (· * ·) b b).sum := by
  unfold autocorrList
  cases b with
  | nil => exact absurd rfl hb
  | cons a l =>
      rw [List.length_cons, List.range_succ_eq_map]
      simp [List.getD]

/-- All autocorrelation entries of an all-zero buffer vanish. -/
theorem autocorr_getD_of_all_zero (b : List ℚ) (h : ∀ x ∈ b, x = 0) (i : Nat) :
    (autocorrList b).getD i 0 = 0 := by
  unfold autocorrList
  rcases Nat.lt_or_ge i b.length with hlt | hge
  · rw [List.getD_eq_getElem?_getD, List.getElem?_map, List.getElem?_range hlt]
    simp [zip_zero_sum b (b.drop i) h]
  · rw [List.getD_eq_getElem?_getD, List.getElem?_eq_none (by simpa using hge)]
    rfl

/-- The parabolic-interpolation offset `b/(2a)` is at most `1/2` in
magnitude when the peak value `x2` dominates both neighbours and the
curvature is nonzero. -/
theorem parabola_shift_bound (x1 x2 x3 : ℚ) (h1 : x1 ≤ x2) (h3 : x3 ≤ x2)
    (ha : (x1 + x3 - 2 * x2) / 2 ≠ 0) :
    |((x3 - x1) / 2) / (2 * ((x1 + x3 - 2 * x2) / 2))| ≤ 1 / 2 := by
  have hA : (x1 + x3 - 2 * x2) / 2 < 0 := by
    rcases lt_or_eq_of_le (by linarith : (x1 + x3 - 2 * x2) / 2 ≤ 0) with h | h
    · exact h
    · exact absurd h ha
  have h2A : 2 * ((x1 + x3 - 2 * x2) / 2) < 0 := by linarith
  rw [abs_le]
  constructor
  · rw [le_div_iff_of_neg h2A]
    linarith
  · rw [div_le_iff_of_neg h2A]
    linarith

/-- All trace fields that do not depend on which guard fired: `acScan`
always stores its arguments and the scan outcome. -/
theorem acScan_fields (hist sliced c : List ℚ) (sr : ℚ) :
    (acScan hist sliced c sr).c = c ∧
    (acScan hist sliced c sr).lo
      = max (descendIdx c) (Nat.floor (sr / 1000)) ∧
    (acScan hist sliced c sr).hi
      = min sliced.length (Nat.floor (sr / 80)) ∧
    (acScan hist sliced c sr).maxval
      = (scanPeak c (max (descendIdx c) (Nat.floor (sr / 1000)))
          (min sliced.length (Nat.floor (sr / 80)))).1 ∧
    (acScan hist sliced c sr).maxpos
      = (scanPeak c (max (descendIdx c) (Nat.floor (sr / 1000)))
          (min sliced.length (Nat.floor (sr / 80)))).2 := by
  simp only [acScan]
  rcases hscan : (scanPeak c (max (descendIdx c) (Nat.floor (sr / 1000)))
      (min sliced.length (Nat.floor (sr / 80)))).2 with _ | p
  · simp [hscan]
  · simp only [hscan]
    split_ifs <;> simp

/-- Characterisation of a recorded final division: it happens exactly
past the positive-peak and clarity gates, and its divisor is the
(possibly interpolated) `T0`. -/
theorem acScan_final_char (hist sliced c : List ℚ) (sr : ℚ) (t : ℚ)
    (ht : (acScan hist sliced c sr).finalDivision = some t) :
    ∃ p, (scanPeak c (max (descendIdx c) (Nat.floor (sr / 1000)))
        (min sliced.length (Nat.floor (sr / 80)))).2 = some p ∧
      0 < (scanPeak c (max (descendIdx c) (Nat.floor (sr / 1000)))
        (min sliced.length (Nat.floor (sr / 80)))).1 ∧
      ¬((scanPeak c (max (descendIdx c) (Nat.floor (sr / 1000)))
        (min sliced.length (Nat.floor (sr / 80)))).1 / c.getD 0 0 < MIN_CLARITY) ∧
      t = (if 0 < p ∧ p < sliced.length - 1 ∧ parabolaA c p ≠ 0
           then (p : ℚ) - parabolaB c p / (2 * parabolaA c p) else (p : ℚ)) := by
  simp only [acScan] at ht
  rcases hscan : (scanPeak c (max (descendIdx c) (Nat.floor (sr / 1000)))
      (min sliced.length (Nat.floor (sr / 80)))).2 with _ | p
  · rw [hscan] at ht
    simp at ht
  · rw [hscan] at ht
    dsimp only at ht
    refine ⟨p, rfl, ?_⟩
    by_cases hmv : (scanPeak c (max (descendIdx c) (Nat.floor (sr / 1000)))
        (min sliced.length (Nat.floor (sr / 80)))).1 ≤ 0
    · rw [if_pos hmv] at ht
      simp at ht
    · rw [if_neg hmv] at ht
      by_cases hcl : (scanPeak c (max (descendIdx c) (Nat.floor (sr / 1000)))
          (min sliced.length (Nat.floor (sr / 80)))).1 / c.getD 0 0 < MIN_CLARITY
      · rw [if_pos hcl] at ht
        simp at ht
      · rw [if_neg hcl] at ht
        exact ⟨lt_of_not_le hmv, hcl, (Option.some.inj ht).symm⟩

theorem buildPitchData_frequency (centsOf : ℚ → ℚ → ℤ) (tbl : List (String × ℚ))
    (f cl : ℚ) (buf : List ℚ) :
    (buildPitchData centsOf tbl f cl buf).frequency = if 0 < f then f else 0 := by
  unfold buildPitchData
  by_cases h : 0 < f
  · rw [if_pos h, if_pos h]
    cases hn : findClosestNote tbl centsOf f <;> rfl
  · rw [if_neg h, if_neg h]

theorem buildPitchData_clarity (centsOf : ℚ → ℚ → ℤ) (tbl : List (String × ℚ))
    (f cl : ℚ) (buf : List ℚ) :
    (buildPitchData centsOf tbl f cl buf).clarity = cl := by
  unfold buildPitchData
  by_cases h : 0 < f
  · rw [if_pos h]
    cases hn : findClosestNote tbl centsOf f <;> rfl
  · rw [if_neg h]

/-- The per-frame state update of lines 214-224, extracted. -/
theorem processResult_state (centsOf : ℚ → ℚ → ℤ) (tbl : List (String × ℚ))
    (s : TrackerState) (res : ACResult) (now : ℚ) (buf : List ℚ) :
    (processResult centsOf tbl s res now buf).1
      = if 0 < res.frequency then
          { frequencyHistory :=
              (smoothFrequency
                (if PAUSE_THRESHOLD < now - s.lastDetectionTime then []
                 else s.frequencyHistory) res.frequency).1,
            lastDetectionTime := now }
        else s := by
  unfold processResult
  by_cases h : 0 < res.frequency
  · rw [if_pos h, if_pos h]
  · rw [if_neg h, if_neg h]

/-- The delivered record is `buildPitchData` of the tracked frequency. -/
theorem processResult_pd (centsOf : ℚ → ℚ → ℤ) (tbl : List (String × ℚ))
    (s : TrackerState) (res : ACResult) (now : ℚ) (buf : List ℚ) :
    (processResult centsOf tbl s res now buf).2
      = buildPitchData centsOf tbl (trackedFrequency s res now) res.clarity buf := by
  unfold processResult trackedFrequency
  by_cases h : 0 < res.frequency
  · rw [if_pos h, if_pos h]
  · rw [if_neg h, if_neg h]

/-- One smoothing step keeps the history within `HISTORY_SIZE`. -/
theorem smoothFrequency_length (hist : List ℚ) (f : ℚ)
    (h : hist.length ≤ HISTORY_SIZE) :
    (smoothFrequency hist f).1.length ≤ HISTORY_SIZE := by
  simp only [smoothFrequency]
  split_ifs with h1 h2 h3 <;>
    simp_all [HISTORY_SIZE, List.length_tail, List.length_append]

/-- Lines 55-62: a frame whose RMS is below `MIN_RMS` returns the
sentinel with clarity 0 immediately. -/
theorem silent_result (hist buf : List ℚ) (sr : ℚ)
    (h1 : buf ≠ []) (h2 : sumSquares buf / (buf.length : ℚ) < MIN_RMS ^ 2) :
    autoCorrelate hist buf sr = { frequency := -1, clarity := 0 } := by
  unfold autoCorrelate autoCorrelateTrace
  rw [if_pos ⟨fun hl => h1 (List.length_eq_zero.mp hl), h2⟩]

/-- Within `acScan`, whenever the computed clarity is below
`MIN_CLARITY`, the returned record is the sentinel carrying exactly
that clarity. -/
theorem acScan_low_clarity (hist sliced c : List ℚ) (sr : ℚ)
    (h : (acScan hist sliced c sr).clarity < MIN_CLARITY) :
    (acScan hist sliced c sr).result
      = { frequency := -1, clarity := (acScan hist sliced c sr).clarity } := by
  simp only [acScan] at h ⊢
  rcases hscan : (scanPeak c (max (descendIdx c) (Nat.floor (sr / 1000)))
      (min sliced.length (Nat.floor (sr / 80)))).2 with _ | p
  · rfl
  · rw [hscan] at h
    dsimp only at h ⊢
    by_cases hmv : (scanPeak c (max (descendIdx c) (Nat.floor (sr / 1000)))
        (min sliced.length (Nat.floor (sr / 80)))).1 ≤ 0
    · rw [if_pos hmv] at h ⊢
    · rw [if_neg hmv] at h ⊢
      by_cases hcl : (scanPeak c (max (descendIdx c) (Nat.floor (sr / 1000)))
          (min sliced.length (Nat.floor (sr / 80)))).1 / c.getD 0 0 < MIN_CLARITY
      · rw [if_pos hcl] at h ⊢
      · rw [if_neg hcl] at h ⊢
        exact absurd h hcl

/-! ## Evaluated equalities for the concrete frames -/

set_option maxRecDepth 1000000 in
theorem trim_T0zero : trimmedBuf cexBufT0zero = sT0zero := by decide

set_option maxRecDepth 1000000 in
theorem trim_highFreq : trimmedBuf cexBufHighFreq = sHighFreq := by decide

set_option maxRecDepth 1000000 in
theorem trim_interior : trimmedBuf cexBufInterior = sInterior := by decide

set_option maxRecDepth 1000000 in
theorem trim_lowFreq : trimmedBuf cexBufLowFreq = sLowFreq := by decide

set_option maxRecDepth 1000000 in
set_option maxHeartbeats 8000000 in
theorem autocorr_T0zero : autocorrList sT0zero = cT0zero := by decide

set_option maxRecDepth 1000000 in
set_option maxHeartbeats 8000000 in
theorem autocorr_highFreq : autocorrList sHighFreq = cHighFreq := by decide

set_option maxRecDepth 1000000 in
set_option maxHeartbeats 8000000 in
theorem autocorr_interior : autocorrList sInterior = cInterior := by decide

set_option maxRecDepth 1000000 in
set_option maxHeartbeats 8000000 in
theorem autocorr_lowFreq : autocorrList sLowFreq = cLowFreq := by decide

/-! ## Claim theorems -/

/-- C1 (amended): the selected correlation peak lag always lies inside
the configured search window `[⌊sr/1000⌋, ⌊sr/80⌋)` — the 80-1000 Hz lag
window of lines 94-97.  This is all the code guarantees: the delivered
frequency itself can leave any configured band through window-boundary
parabolic interpolation or octave folding (see the counterexample), and
no 50-2000 Hz output filter exists anywhere in the source. -/
theorem c1_peak_lag_in_window (hist buf : List ℚ) (sr : ℚ) (p : Nat)
    (hp : (autoCorrelateTrace hist buf sr).maxpos = some p) :
    Nat.floor (sr / 1000) ≤ p ∧ p < Nat.floor (sr / 80) := by
  unfold autoCorrelateTrace at hp
  split_ifs at hp with hsil hshort
  obtain ⟨hc, hlo, hhi, hmv, hmp⟩ :=
    acScan_fields hist (trimmedBuf buf) (autocorrList (trimmedBuf buf)) sr
  rw [hmp] at hp
  obtain ⟨_, hplo, hphi, _⟩ := scanPeak_spec _ _ _ p hp
  exact ⟨le_trans (le_max_right _ _) hplo, lt_of_lt_of_le hphi (min_le_right _ _)⟩

set_option maxRecDepth 1000000 in
/-- C1 (counterexample): one frame processed from the initial state at
8000 Hz sample rate is delivered to the caller with a non-sentinel
frequency of 16000 Hz — outside both the 80-1000 Hz window frequency
range and the spec's 50-2000 Hz filter range (no such filter exists in
the code).  The window-boundary peak at lag 8 is interpolated by an
offset of 15/2, giving `T0 = 1/2` and `frequency = 8000/(1/2)`. -/
theorem c1_out_of_range_output :
    (updatePitchStep centsOf0 [] initialState cexBufHighFreq 8000 1).2.frequency = 16000 ∧
    ¬((50:ℚ) ≤ 16000 ∧ (16000:ℚ) ≤ 2000) ∧
    ¬((80:ℚ) ≤ 16000 ∧ (16000:ℚ) ≤ 1000) := by
  have hres : autoCorrelate initialState.frequencyHistory cexBufHighFreq 8000
      = { frequency := 16000, clarity := 4718/5209 } := by
    unfold autoCorrelate
    rw [autoCorrelateTrace_stage initialState.frequencyHistory cexBufHighFreq 8000
      (by decide) (by decide), trim_highFreq, autocorr_highFreq]
    decide
  refine ⟨?_, by decide, by decide⟩
  unfold updatePitchStep
  rw [hres, processResult_pd, buildPitchData_frequency]
  decide

set_option maxRecDepth 1000000 in
/-- C1 (witness): the window theorem applied to a concrete frame whose
peak is at lag 8, with `⌊8000/1000⌋ = 8 ≤ 8 < 100 = ⌊8000/80⌋`. -/
theorem c1_window_witness :
    (autoCorrelateTrace [] cexBufT0zero 8000).maxpos = some 8 ∧
    Nat.floor ((8000:ℚ) / 1000) ≤ 8 ∧ 8 < Nat.floor ((8000:ℚ) / 80) := by
  have hp : (autoCorrelateTrace [] cexBufT0zero 8000).maxpos = some 8 := by
    rw [autoCorrelateTrace_stage [] cexBufT0zero 8000 (by decide) (by decide),
      trim_T0zero, autocorr_T0zero]
    decide
  obtain ⟨a, b⟩ := c1_peak_lag_in_window [] cexBufT0zero 8000 8 hp
  exact ⟨hp, a, b⟩

/-- C2 (amended): on a valid estimate after more than `PAUSE_THRESHOLD`
ms of silence, the history is cleared before the estimate is added (so
it is exactly `[frequency]` afterwards, length 1), the timestamp is
updated, and the output frequency is the raw estimate — it is not
smoothed against the stale history.  However the delivered `PitchData`
carries no `isAfterGap` flag (see the counterexample): the record's
fields are `frequency`, `note`, `noteString`, `cents`, `buffer`,
`clarity` only. -/
theorem c2_gap_clears_history (centsOf : ℚ → ℚ → ℤ) (tbl : List (String × ℚ))
    (s : TrackerState) (f c now : ℚ) (buf : List ℚ)
    (hf : 0 < f) (hgap : PAUSE_THRESHOLD < now - s.lastDetectionTime) :
    (processResult centsOf tbl s { frequency := f, clarity := c } now buf).1.frequencyHistory
      = [f] ∧
    (processResult centsOf tbl s { frequency := f, clarity := c } now buf).1.lastDetectionTime
      = now ∧
    (processResult centsOf tbl s { frequency := f, clarity := c } now buf).2.frequency = f := by
  have hsm : smoothFrequency [] f = ([f], f) := by
    unfold smoothFrequency
    simp [HISTORY_SIZE]
  refine ⟨?_, ?_, ?_⟩
  · rw [processResult_state, if_pos hf, if_pos hgap, hsm]
  · rw [processResult_state, if_pos hf]
  · rw [processResult_pd, buildPitchData_frequency, trackedFrequency, if_pos hf,
      if_pos hgap, hsm]
    exact if_pos hf

/-- C2 (counterexample): the claim requires the gap-boundary frame's
output — and only that frame's — to carry `isAfterGap = true`.  The
code's `PitchData` has no such field, and indeed a gap-boundary frame
(state last detected at 0, frame at 2000 ms) and a non-gap frame (state
last detected at 1500 ms, reachable via a valid frame followed by
`stopListening`) produce byte-for-byte identical outputs, so no
component of the delivered record distinguishes them. -/
theorem c2_output_lacks_gap_flag :
    gapTriggered { frequencyHistory := [], lastDetectionTime := 0 }
      { frequency := 440, clarity := 19/20 } 2000 = true ∧
    gapTriggered { frequencyHistory := [], lastDetectionTime := 1500 }
      { frequency := 440, clarity := 19/20 } 2000 = false ∧
    (processResult centsOf0 [] { frequencyHistory := [], lastDetectionTime := 0 }
        { frequency := 440, clarity := 19/20 } 2000 []).2
      = (processResult centsOf0 [] { frequencyHistory := [], lastDetectionTime := 1500 }
        { frequency := 440, clarity := 19/20 } 2000 []).2 := by
  refine ⟨by decide, by decide, by decide⟩

/-- C2 (witness): the gap-reset theorem at a concrete gap boundary. -/
theorem c2_gap_witness :
    (0:ℚ) < 440 ∧
    PAUSE_THRESHOLD < (2000:ℚ) - (0:ℚ) ∧
    (processResult centsOf0 [] { frequencyHistory := [100, 200, 300], lastDetectionTime := 0 }
        { frequency := 440, clarity := 1/2 } 2000 []).1.frequencyHistory = [440] ∧
    (processResult centsOf0 [] { frequencyHistory := [100, 200, 300], lastDetectionTime := 0 }
        { frequency := 440, clarity := 1/2 } 2000 []).1.lastDetectionTime = 2000 ∧
    (processResult centsOf0 [] { frequencyHistory := [100, 200, 300], lastDetectionTime := 0 }
        { frequency := 440, clarity := 1/2 } 2000 []).2.frequency = 440 := by
  have hf : (0:ℚ) < 440 := by decide
  have hg : PAUSE_THRESHOLD < (2000:ℚ) - 0 := by decide
  obtain ⟨a, b, c⟩ := c2_gap_clears_history centsOf0 []
    { frequencyHistory := [100, 200, 300], lastDetectionTime := 0 } 440 (1/2) 2000 [] hf hg
  exact ⟨hf, by decide, a, b, c⟩

/-- C3 (amended): with at least 3 history entries the corrector either
passes the estimate through unchanged or folds it to within ±10% of the
history median (the source bands are `(1.8,2.2)`, `(0.45,0.55)`,
`(2.8,3.2)`, `(0.3,0.35)` — ten-percent-wide, not the claimed ±2.5%);
the function receives no per-frame delta information at all, so no
gradual/abrupt classification exists (see the counterexample). -/
theorem c3_fold_lands_near_median (hist : List ℚ) (f : ℚ) (h3 : 3 ≤ hist.length) :
    correctOctaveError hist f = f ∨
      (9/10 < correctOctaveError hist f / getSmoothedFrequency hist ∧
       correctOctaveError hist f / getSmoothedFrequency hist < 11/10) := by
  simp only [correctOctaveError]
  rw [if_neg (by omega)]
  split_ifs with h1 h2 h4 h5
  · right
    have e : f / 2 / getSmoothedFrequency hist = f / getSmoothedFrequency hist / 2 := by
      ring
    rw [e]
    exact ⟨by linarith [h1.1], by linarith [h1.2]⟩
  · right
    have e : f * 2 / getSmoothedFrequency hist = f / getSmoothedFrequency hist * 2 := by
      ring
    rw [e]
    exact ⟨by linarith [h2.1], by linarith [h2.2]⟩
  · right
    have e : f / 3 / getSmoothedFrequency hist = f / getSmoothedFrequency hist / 3 := by
      ring
    rw [e]
    exact ⟨by linarith [h4.1], by linarith [h4.2]⟩
  · right
    have e : f * 3 / getSmoothedFrequency hist = f / getSmoothedFrequency hist * 3 := by
      ring
    rw [e]
    exact ⟨by linarith [h5.1], by linarith [h5.2]⟩
  · left
    rfl

/-- C3 (counterexample): with stable history at 440 Hz an incoming
800 Hz estimate is folded to 400 Hz, although its ratio 800/440 ≈ 1.818
lies outside every ±2.5% band of the claim (outside `(1.95, 2.05)`,
`(0.4875, 0.5125)`, `(2.925, 3.075)` and `(0.325, 0.3417)`), so the
claim's "folds exactly when ... within ±≈2.5%" is false; the fold also
happens independent of any gradualness data, which the function does
not receive. -/
theorem c3_folds_outside_spec_band :
    correctOctaveError [440, 440, 440] 800 = 400 ∧
    getSmoothedFrequency [440, 440, 440] = 440 ∧
    (800:ℚ)/440 < 39/20 ∧ (41:ℚ)/80 < 800/440 ∧
    (800:ℚ)/440 < 117/40 ∧ (41:ℚ)/120 < 800/440 := by
  refine ⟨by decide, by decide, by decide, by decide, by decide, by decide⟩

/-- C3 (witness): the fold theorem at a pass-through input (ratio
100/440 outside every band). -/
theorem c3_passthrough_witness :
    3 ≤ ([440, 440, 440] : List ℚ).length ∧
    (correctOctaveError [440, 440, 440] 100 = 100 ∨
      (9/10 < correctOctaveError [440, 440, 440] 100 / getSmoothedFrequency [440, 440, 440] ∧
       correctOctaveError [440, 440, 440] 100 / getSmoothedFrequency [440, 440, 440] < 11/10)) :=
  ⟨by decide, c3_fold_lands_near_median [440, 440, 440] 100 (by decide)⟩

/-- C4 (amended): clarity never influences the tracked output at all —
there is no high-confidence bypass.  Two frames identical except for
their clarity produce the same new tracker state and the same output
frequency; every accepted estimate goes through `smoothFrequency`
unconditionally (lines 214-224 contain no clarity test). -/
theorem c4_clarity_never_bypasses_smoothing (centsOf : ℚ → ℚ → ℤ)
    (tbl : List (String × ℚ)) (s : TrackerState) (f c1 c2 now : ℚ) (buf : List ℚ) :
    (processResult centsOf tbl s { frequency := f, clarity := c1 } now buf).1
      = (processResult centsOf tbl s { frequency := f, clarity := c2 } now buf).1 ∧
    (processResult centsOf tbl s { frequency := f, clarity := c1 } now buf).2.frequency
      = (processResult centsOf tbl s { frequency := f, clarity := c2 } now buf).2.frequency := by
  refine ⟨?_, ?_⟩
  · rw [processResult_state, processResult_state]
  · rw [processResult_pd, processResult_pd, buildPitchData_frequency,
      buildPitchData_frequency]
    have ht : trackedFrequency s { frequency := f, clarity := c1 } now
        = trackedFrequency s { frequency := f, clarity := c2 } now := rfl
    rw [ht]

/-- C4 (counterexample): an estimate of 500 Hz with clarity 0.95 — far
above the 0.9 trust threshold of the claim — is still smoothed: against
history `[400, 440, 480]` the delivered frequency is the median 460,
not the estimate 500, so smoothing is not bypassed. -/
theorem c4_high_clarity_still_smoothed :
    (9:ℚ)/10 ≤ 19/20 ∧
    (processResult centsOf0 []
        { frequencyHistory := [400, 440, 480], lastDetectionTime := 1000 }
        { frequency := 500, clarity := 19/20 } 1100 []).2.frequency = 460 ∧
    (460:ℚ) ≠ 500 := by
  refine ⟨by decide, by decide, by decide⟩

/-- C5: a frame with no valid estimate (sentinel frequency ≤ 0) leaves
the tracker state untouched — history unmodified and
`lastDetectionTime` unchanged — and its output reports frequency 0
while still carrying the estimator's clarity. -/
theorem c5_no_estimate_keeps_state (centsOf : ℚ → ℚ → ℤ) (tbl : List (String × ℚ))
    (s : TrackerState) (res : ACResult) (now : ℚ) (buf : List ℚ)
    (h : res.frequency ≤ 0) :
    (processResult centsOf tbl s res now buf).1 = s ∧
    (processResult centsOf tbl s res now buf).2.frequency = 0 ∧
    (processResult centsOf tbl s res now buf).2.clarity = res.clarity := by
  have hnot : ¬(0 < res.frequency) := not_lt.mpr h
  refine ⟨?_, ?_, ?_⟩
  · rw [processResult_state, if_neg hnot]
  · rw [processResult_pd, buildPitchData_frequency, trackedFrequency, if_neg hnot,
      if_neg hnot]
  · rw [processResult_pd, buildPitchData_clarity]

/-- C5 (witness): the no-estimate theorem at a concrete sentinel frame. -/
theorem c5_witness :
    ({ frequency := -1, clarity := 1/2 } : ACResult).frequency ≤ 0 ∧
    (processResult centsOf0 [] { frequencyHistory := [777], lastDetectionTime := 5 }
        { frequency := -1, clarity := 1/2 } 99 [1]).1
      = { frequencyHistory := [777], lastDetectionTime := 5 } ∧
    (processResult centsOf0 [] { frequencyHistory := [777], lastDetectionTime := 5 }
        { frequency := -1, clarity := 1/2 } 99 [1]).2.frequency = 0 ∧
    (processResult centsOf0 [] { frequencyHistory := [777], lastDetectionTime := 5 }
        { frequency := -1, clarity := 1/2 } 99 [1]).2.clarity = 1/2 := by
  have h : ({ frequency := -1, clarity := 1/2 } : ACResult).frequency ≤ 0 := by decide
  obtain ⟨a, b, c⟩ := c5_no_estimate_keeps_state centsOf0 []
    { frequencyHistory := [777], lastDetectionTime := 5 }
    { frequency := -1, clarity := 1/2 } 99 [1] h
  refine ⟨h, a, b, ?_⟩
  rw [c]

/-- C6 (amended): the clarity division `maxval / c[0]` always has a
nonzero divisor once a positive peak was selected (an all-zero trimmed
buffer cannot produce a positive correlation), and the parabolic
division `b/(2a)` only executes under the explicit `a ≠ 0` guard (the
final divisor differs from the raw peak lag only when `a ≠ 0`).  The
final division `frequency = sampleRate / T0` is guaranteed nonzero only
when the peak is interior to the search window (both neighbours
scanned); at a window-boundary peak the interpolation offset is
unbounded and `T0` can be exactly 0 — see the counterexample — in which
case JS produces `Infinity` and delivers it as a non-sentinel result. -/
theorem c6_division_guards (hist buf : List ℚ) (sr : ℚ) :
    (∀ p, (autoCorrelateTrace hist buf sr).maxpos = some p →
        0 < (autoCorrelateTrace hist buf sr).maxval →
        (autoCorrelateTrace hist buf sr).c.getD 0 0 ≠ 0) ∧
    (∀ p t, (autoCorrelateTrace hist buf sr).maxpos = some p →
        (autoCorrelateTrace hist buf sr).finalDivision = some t →
        t ≠ (p : ℚ) → parabolaA (autoCorrelateTrace hist buf sr).c p ≠ 0) ∧
    (∀ p t, (autoCorrelateTrace hist buf sr).maxpos = some p →
        (autoCorrelateTrace hist buf sr).finalDivision = some t →
        (autoCorrelateTrace hist buf sr).lo < p →
        p + 1 < (autoCorrelateTrace hist buf sr).hi →
        t ≠ 0) := by
  unfold autoCorrelateTrace
  split_ifs with hsil hshort
  · refine ⟨fun p hp => ?_, fun p t hp => ?_, fun p t hp => ?_⟩ <;> simp at hp
  · refine ⟨fun p hp => ?_, fun p t hp => ?_, fun p t hp => ?_⟩ <;> simp at hp
  · obtain ⟨hc, hlo, hhi, hmv, hmp⟩ :=
      acScan_fields hist (trimmedBuf buf) (autocorrList (trimmedBuf buf)) sr
    have hne : trimmedBuf buf ≠ [] := by
      intro h
      rw [h] at hshort
      simp at hshort
    refine ⟨?_, ?_, ?_⟩
    · intro p hp hpos h0
      rw [hmp] at hp
      rw [hmv] at hpos
      rw [hc] at h0
      obtain ⟨hval, _, _, _⟩ := scanPeak_spec _ _ _ p hp
      rw [hval] at hpos
      have hz := zip_self_sum_eq_zero (trimmedBuf buf)
        (by rw [← autocorr_getD_zero (trimmedBuf buf) hne]; exact h0)
      have hcp := autocorr_getD_of_all_zero (trimmedBuf buf) hz p
      rw [hcp] at hpos
      exact absurd hpos (by norm_num)
    · intro p t hp ht hnep
      rw [hmp] at hp
      rw [hc]
      obtain ⟨pw, hpw, hpos2, hcl2, hteq⟩ := acScan_final_char hist _ _ sr t ht
      rw [hpw] at hp
      obtain rfl := Option.some.inj hp
      by_cases hcond : 0 < pw ∧ pw < (trimmedBuf buf).length - 1
          ∧ parabolaA (autocorrList (trimmedBuf buf)) pw ≠ 0
      · exact hcond.2.2
      · rw [if_neg hcond] at hteq
        exact absurd hteq hnep
    · intro p t hp ht hl hhip
      rw [hmp] at hp
      rw [hlo] at hl
      rw [hhi] at hhip
      obtain ⟨pw, hpw, hpos2, hcl2, hteq⟩ := acScan_final_char hist _ _ sr t ht
      rw [hpw] at hp
      obtain rfl := Option.some.inj hp
      obtain ⟨hval, hplo, hphi, hdom⟩ := scanPeak_spec _ _ _ pw hpw
      have hp1 : 1 ≤ pw := by omega
      by_cases hcond : 0 < pw ∧ pw < (trimmedBuf buf).length - 1
          ∧ parabolaA (autocorrList (trimmedBuf buf)) pw ≠ 0
      · rw [if_pos hcond] at hteq
        have hx1 : (autocorrList (trimmedBuf buf)).getD (pw - 1) 0
            ≤ (autocorrList (trimmedBuf buf)).getD pw 0 :=
          hdom (pw - 1) (by omega) (by omega)
        have hx3 : (autocorrList (trimmedBuf buf)).getD (pw + 1) 0
            ≤ (autocorrList (trimmedBuf buf)).getD pw 0 :=
          hdom (pw + 1) (by omega) (by omega)
        have hbnd := parabola_shift_bound
          ((autocorrList (trimmedBuf buf)).getD (pw - 1) 0)
          ((autocorrList (trimmedBuf buf)).getD pw 0)
          ((autocorrList (trimmedBuf buf)).getD (pw + 1) 0)
          hx1 hx3 hcond.2.2
        have hshift := (abs_le.mp hbnd).2
        have hcast : (1 : ℚ) ≤ (pw : ℚ) := by exact_mod_cast hp1
        have htpos : 0 < t := by
          rw [hteq]
          unfold parabolaA parabolaB
          linarith
        exact ne_of_gt htpos
      · rw [if_neg hcond] at hteq
        have he : t = (pw : ℚ) := hteq
        rw [he]
        exact Nat.cast_ne_zero.mpr (by omega)

set_option maxRecDepth 1000000 in
/-- C6 (counterexample): a concrete 101-sample frame at 8000 Hz sample
rate reaches the final division `frequency = sampleRate / T0` with
divisor exactly 0: the peak sits at the window boundary (lag 8 with
window `[8, 100)`), so the neighbour `c[7]` was never scanned, the
curvature is negative and tiny, and the parabolic offset is exactly 8.
In JS this division yields `Infinity`, which flows to the caller as a
non-sentinel frequency — the claimed "provably non-zero divisor under
the preceding checks" is false for this division. -/
theorem c6_zero_divisor_reached :
    (autoCorrelateTrace [] cexBufT0zero 8000).finalDivision = some 0 := by
  rw [autoCorrelateTrace_stage [] cexBufT0zero 8000 (by decide) (by decide),
    trim_T0zero, autocorr_T0zero]
  decide

set_option maxRecDepth 1000000 in
/-- C6 (witness): the guard theorem applied to a concrete frame whose
peak (lag 9) is interior to the window `[8, 100)`: its recorded final
divisor `623/72` is nonzero. -/
theorem c6_interior_witness :
    (autoCorrelateTrace [] cexBufInterior 8000).maxpos = some 9 ∧
    (autoCorrelateTrace [] cexBufInterior 8000).finalDivision = some (623/72) ∧
    (autoCorrelateTrace [] cexBufInterior 8000).lo < 9 ∧
    9 + 1 < (autoCorrelateTrace [] cexBufInterior 8000).hi ∧
    (623:ℚ)/72 ≠ 0 := by
  have hstage : autoCorrelateTrace [] cexBufInterior 8000
      = acScan [] sInterior cInterior 8000 := by
    rw [autoCorrelateTrace_stage [] cexBufInterior 8000 (by decide) (by decide),
      trim_interior, autocorr_interior]
  have h1 : (autoCorrelateTrace [] cexBufInterior 8000).maxpos = some 9 := by
    rw [hstage]; decide
  have h2 : (autoCorrelateTrace [] cexBufInterior 8000).finalDivision = some (623/72) := by
    rw [hstage]; decide
  have h3 : (autoCorrelateTrace [] cexBufInterior 8000).lo < 9 := by
    rw [hstage]; decide
  have h4 : 9 + 1 < (autoCorrelateTrace [] cexBufInterior 8000).hi := by
    rw [hstage]; decide
  exact ⟨h1, h2, h3, h4,
    (c6_division_guards [] cexBufInterior 8000).2.2 9 (623/72) h1 h2 h3 h4⟩

/-- C7: a frame whose RMS is below `MIN_RMS` — in particular any
all-zero buffer — makes the estimator return the sentinel immediately
with clarity 0 (the very first guard, lines 55-62), and the frame's
delivered output reports frequency 0 and clarity 0 with the tracker
state untouched. -/
theorem c7_silent_frame (hist buf : List ℚ) (sr : ℚ) (centsOf : ℚ → ℚ → ℤ)
    (tbl : List (String × ℚ)) (s : TrackerState) (now : ℚ)
    (h1 : buf ≠ []) (h2 : sumSquares buf / (buf.length : ℚ) < MIN_RMS ^ 2) :
    autoCorrelate hist buf sr = { frequency := -1, clarity := 0 } ∧
    (updatePitchStep centsOf tbl s buf sr now).1 = s ∧
    (updatePitchStep centsOf tbl s buf sr now).2.frequency = 0 ∧
    (updatePitchStep centsOf tbl s buf sr now).2.clarity = 0 := by
  have hres := silent_result s.frequencyHistory buf sr h1 h2
  have ht : trackedFrequency s { frequency := -1, clarity := 0 } now = -1 := by
    unfold trackedFrequency
    rw [if_neg (by decide)]
  refine ⟨silent_result hist buf sr h1 h2, ?_, ?_, ?_⟩
  · unfold updatePitchStep
    rw [hres, processResult_state, if_neg (by decide)]
  · unfold updatePitchStep
    rw [hres, processResult_pd, buildPitchData_frequency, ht, if_neg (by decide)]
  · unfold updatePitchStep
    rw [hres, processResult_pd, buildPitchData_clarity]

/-- C7 (witness): the silent-frame theorem at an all-zero buffer. -/
theorem c7_witness :
    ([0, 0, 0] : List ℚ) ≠ [] ∧
    sumSquares [0, 0, 0] / (([0, 0, 0] : List ℚ).length : ℚ) < MIN_RMS ^ 2 ∧
    autoCorrelate [9] [0, 0, 0] 44100 = { frequency := -1, clarity := 0 } ∧
    (updatePitchStep centsOf0 [] { frequencyHistory := [9], lastDetectionTime := 7 }
        [0, 0, 0] 44100 50).1
      = { frequencyHistory := [9], lastDetectionTime := 7 } ∧
    (updatePitchStep centsOf0 [] { frequencyHistory := [9], lastDetectionTime := 7 }
        [0, 0, 0] 44100 50).2.frequency = 0 ∧
    (updatePitchStep centsOf0 [] { frequencyHistory := [9], lastDetectionTime := 7 }
        [0, 0, 0] 44100 50).2.clarity = 0 := by
  have h1 : ([0, 0, 0] : List ℚ) ≠ [] := by decide
  have h2 : sumSquares [0, 0, 0] / (([0, 0, 0] : List ℚ).length : ℚ) < MIN_RMS ^ 2 := by
    decide
  obtain ⟨a, b, c, d⟩ := c7_silent_frame [9] [0, 0, 0] 44100 centsOf0 []
    { frequencyHistory := [9], lastDetectionTime := 7 } 50 h1 h2
  exact ⟨h1, h2, a, b, c, d⟩

/-- C8 (amended): whenever the computed clarity falls below the fixed
threshold `MIN_CLARITY = 0.9`, the estimator returns the sentinel while
still reporting that computed clarity value, so a caller can
distinguish a weak signal from no signal.  The threshold is the same
constant at every frequency: lines 106-107 compare against
`this.MIN_CLARITY` only — there is no adaptive relaxation below 200 Hz
(see the counterexample). -/
theorem c8_fixed_clarity_threshold (hist buf : List ℚ) (sr : ℚ)
    (h : (autoCorrelateTrace hist buf sr).clarity < MIN_CLARITY) :
    autoCorrelate hist buf sr
      = { frequency := -1, clarity := (autoCorrelateTrace hist buf sr).clarity } := by
  unfold autoCorrelate
  unfold autoCorrelateTrace at h ⊢
  split_ifs at h ⊢ with hsil hshort
  · rfl
  · rfl
  · exact acScan_low_clarity _ _ _ _ h

set_option maxRecDepth 1000000 in
/-- C8 (counterexample): a 151-sample square wave of period 22 at
4000 Hz sample rate yields a candidate pitch of 4000/22 ≈ 181.8 Hz —
below the 200 Hz mark — with clarity 64/75 ≈ 0.853, inside the spec's
relaxed band [0.85, 0.9); the code still rejects it (sentinel -1), so
no adaptive relaxation of the clarity threshold exists for low
frequencies. -/
theorem c8_low_freq_not_relaxed :
    (autoCorrelateTrace [] cexBufLowFreq 4000).maxpos = some 22 ∧
    (4000:ℚ) / 22 < 200 ∧
    (autoCorrelateTrace [] cexBufLowFreq 4000).clarity = 64/75 ∧
    (17:ℚ)/20 ≤ 64/75 ∧ (64:ℚ)/75 < 9/10 ∧
    (autoCorrelateTrace [] cexBufLowFreq 4000).result
      = { frequency := -1, clarity := 64/75 } := by
  have hstage : autoCorrelateTrace [] cexBufLowFreq 4000
      = acScan [] sLowFreq cLowFreq 4000 := by
    rw [autoCorrelateTrace_stage [] cexBufLowFreq 4000 (by decide) (by decide),
      trim_lowFreq, autocorr_lowFreq]
  rw [hstage]
  refine ⟨by decide, by decide, by decide, by decide, by decide, by decide⟩

set_option maxRecDepth 1000000 in
/-- C8 (witness): the fixed-threshold theorem at the concrete
low-clarity frame: its computed clarity 64/75 is below `MIN_CLARITY`
and the returned record is the sentinel carrying 64/75. -/
theorem c8_witness :
    (autoCorrelateTrace [] cexBufLowFreq 4000).clarity < MIN_CLARITY ∧
    autoCorrelate [] cexBufLowFreq 4000
      = { frequency := -1, clarity := (autoCorrelateTrace [] cexBufLowFreq 4000).clarity } := by
  have hstage : autoCorrelateTrace [] cexBufLowFreq 4000
      = acScan [] sLowFreq cLowFreq 4000 := by
    rw [autoCorrelateTrace_stage [] cexBufLowFreq 4000 (by decide) (by decide),
      trim_lowFreq, autocorr_lowFreq]
  have h : (autoCorrelateTrace [] cexBufLowFreq 4000).clarity < MIN_CLARITY := by
    rw [hstage]; decide
  exact ⟨h, c8_fixed_clarity_threshold [] cexBufLowFreq 4000 h⟩

/-- C9: in every reachable tracker state the frequency history holds at
most `HISTORY_SIZE = 5` entries: the initial state starts empty, a
processed frame pushes then drops the head beyond 5 (lines 137-140),
the gap reset clears, and `stopListening` clears. -/
theorem c9_history_bounded (s : TrackerState) (h : Reachable s) :
    s.frequencyHistory.length ≤ HISTORY_SIZE := by
  induction h with
  | init => simp [initialState, HISTORY_SIZE]
  | step centsOf tbl buf sr now hs ih =>
      rw [updatePitchStep, processResult_state]
      split_ifs with h1 h2
      · exact smoothFrequency_length [] _ (by simp [HISTORY_SIZE])
      · exact smoothFrequency_length _ _ ih
      · exact ih
  | stop hs ih => simp [stopListening]

/-- C9 (witness): the bound theorem at the (reachable) initial state. -/
theorem c9_witness :
    Reachable initialState ∧ initialState.frequencyHistory.length ≤ HISTORY_SIZE :=
  ⟨Reachable.init, c9_history_bounded initialState Reachable.init⟩

/-- C10: with fewer than 3 history entries — in particular on the first
frames of a session and on the first frame after a gap reset — the
octave corrector is the identity (line 123). -/
theorem c10_short_history_identity (hist : List ℚ) (f : ℚ)
    (h : hist.length < 3) : correctOctaveError hist f = f := by
  unfold correctOctaveError
  rw [if_pos h]

/-- C10 (witness): the identity theorem at a 2-entry history. -/
theorem c10_witness :
    ([1, 2] : List ℚ).length < 3 ∧ correctOctaveError [1, 2] 7 = 7 :=
  ⟨by decide, c10_short_history_identity [1, 2] 7 (by decide)⟩
